import Mathlib

/-!
Verification of `talpid-openvpn/src/process/openvpn.rs` (Mullvad VPN app):
the OpenVPN command builder (`OpenVpnCommand`) and the process supervisor
(`OpenVpnProcHandle`).

Shallow embedding conventions:
* The Linux configuration of the code is modelled (`cfg(target_os = "linux")`
  blocks are included, `cfg(windows)` blocks are excluded), matching the
  platform the daemon is built for; the claims under study are
  platform-independent.
* `PathBuf` / `OsString` values and rendered IP addresses are modelled as
  `String`: the builder only ever converts them to argument strings.
* `u16` / `u32` numeric fields are modelled as `Nat`; Rust's `to_string`
  renders them in decimal exactly as Lean's `toString`.
* The `panic!` in `proxy_arguments` (dynamic proxy port missing) is modelled
  by returning `none`: `get_arguments` returns `Option (List String)`, where
  `none` is the abort outcome and `some args` the produced argument vector.
-/

/-- `talpid_types::net::TransportProtocol` (only the two variants used). -/
inductive TransportProtocol where
  | udp
  | tcp
deriving DecidableEq, Repr

/-- `talpid_types::net::Endpoint`: socket address plus transport protocol.
The `SocketAddr` is modelled by its rendered IP string and its port, since
the builder only uses `address.ip().to_string()` and
`address.port().to_string()`. -/
structure Endpoint where
  ip : String
  port : Nat
  protocol : TransportProtocol
deriving DecidableEq, Repr

/-- `talpid_types::net::openvpn::ProxyAuth` (username/password); the builder
only tests its presence. -/
structure ProxyAuth where
  username : String
  password : String
deriving DecidableEq, Repr

/-- `talpid_types::net::openvpn::LocalProxySettings`: local port and peer
socket address (only the peer's IP is used by the builder). -/
structure LocalProxySettings where
  port : Nat
  peerIp : String
deriving DecidableEq, Repr

/-- `talpid_types::net::openvpn::RemoteProxySettings`: remote socket address
and optional auth. -/
structure RemoteProxySettings where
  ip : String
  port : Nat
  auth : Option ProxyAuth
deriving DecidableEq, Repr

/-- `talpid_types::net::openvpn::ShadowsocksProxySettings`: only the peer
address is read by the builder (`ss.peer.ip()`). -/
structure ShadowsocksProxySettings where
  peerIp : String
deriving DecidableEq, Repr

/-- `talpid_types::net::openvpn::ProxySettings`. -/
inductive ProxySettings where
  | Local (s : LocalProxySettings)
  | Remote (s : RemoteProxySettings)
  | Shadowsocks (s : ShadowsocksProxySettings)
deriving DecidableEq, Repr

/-- `talpid_types::net::openvpn::TunnelOptions`: only `mssfix` is read by the
builder. -/
structure TunnelOptions where
  mssfix : Option Nat
deriving DecidableEq, Repr

/-- The `OpenVpnCommand` builder state (Linux configuration, so the `fwmark`
field is present). Field order and names follow the Rust struct. -/
structure OpenVpnCommand where
  openvpn_bin : String
  config : Option String
  remote : Option Endpoint
  user_pass_path : Option String
  proxy_auth_path : Option String
  ca : Option String
  crl : Option String
  plugin : Option (String × List String)
  log : Option String
  tunnel_options : TunnelOptions
  proxy_settings : Option ProxySettings
  tunnel_alias : Option String
  enable_ipv6 : Bool
  proxy_port : Option Nat
  fwmark : Option Nat
deriving DecidableEq, Repr

namespace OpenVpnCommand

/-- `OpenVpnCommand::new`: every optional field starts empty,
`enable_ipv6` starts `true`, `tunnel_options` is the default (no mssfix). -/
def new (openvpn_bin : String) : OpenVpnCommand :=
  { openvpn_bin := openvpn_bin
    config := none
    remote := none
    user_pass_path := none
    proxy_auth_path := none
    ca := none
    crl := none
    plugin := none
    log := none
    tunnel_options := { mssfix := none }
    proxy_settings := none
    tunnel_alias := none
    enable_ipv6 := true
    proxy_port := none
    fwmark := none }

/-- `BASE_ARGUMENTS` for the Linux build: the `cfg(not(windows))` and
`cfg(target_os = "linux")` entries are kept, the `cfg(windows)` entries
dropped. -/
def BASE_ARGUMENTS : List (List String) :=
  [["--client"],
   ["--tls-client"],
   ["--nobind"],
   ["--mute-replay-warnings"],
   ["--dev", "tun"],
   ["--ping", "4"],
   ["--ping-exit", "25"],
   ["--connect-timeout", "30"],
   ["--connect-retry", "0", "0"],
   ["--connect-retry-max", "1"],
   ["--remote-cert-tls", "server"],
   ["--rcvbuf", "1048576"],
   ["--sndbuf", "1048576"],
   ["--fast-io"],
   ["--data-ciphers-fallback", "AES-256-GCM"],
   ["--tls-version-min", "1.3"],
   ["--verb", "3"],
   ["--route-noexec"]]

/-- `ALLOWED_TLS1_3_CIPHERS`. -/
def ALLOWED_TLS1_3_CIPHERS : List String :=
  ["TLS_AES_256_GCM_SHA384", "TLS_CHACHA20_POLY1305_SHA256"]

/-- `OpenVpnCommand::base_arguments`: flattens `BASE_ARGUMENTS`. -/
def base_arguments : List String :=
  BASE_ARGUMENTS.flatten

/-- `OpenVpnCommand::tls_cipher_arguments`. -/
def tls_cipher_arguments : List String :=
  ["--tls-ciphersuites", String.intercalate ":" ALLOWED_TLS1_3_CIPHERS]

/-- `OpenVpnCommand::remote_arguments`. -/
def remote_arguments (c : OpenVpnCommand) : List String :=
  match c.remote with
  | some endpoint =>
    ["--proto",
     (match endpoint.protocol with
      | TransportProtocol.udp => "udp"
      | TransportProtocol.tcp => "tcp-client"),
     "--remote", endpoint.ip, toString endpoint.port]
  | none => []

/-- `OpenVpnCommand::authentication_arguments`. -/
def authentication_arguments (c : OpenVpnCommand) : List String :=
  match c.user_pass_path with
  | some user_pass_path => ["--auth-user-pass", user_pass_path]
  | none => []

/-- `OpenVpnCommand::proxy_arguments`. Returns `none` exactly when the code
would `panic!` ("Dynamic proxy port was not registered"): the Shadowsocks
variant with no recorded `proxy_port`. The `log::error!` in the Remote
branch (auth present but no credentials file) only logs; the arguments are
produced without the credential token. -/
def proxy_arguments (c : OpenVpnCommand) : Option (List String) :=
  match c.proxy_settings with
  | some (ProxySettings.Local local_proxy) =>
    some ["--socks-proxy", "127.0.0.1", toString local_proxy.port,
          "--route", local_proxy.peerIp, "255.255.255.255", "net_gateway"]
  | some (ProxySettings.Remote remote_proxy) =>
    some (["--socks-proxy", remote_proxy.ip, toString remote_proxy.port]
      ++ (match remote_proxy.auth with
          | some _ =>
            (match c.proxy_auth_path with
             | some auth_file => [auth_file]
             | none => [])
          | none => [])
      ++ ["--route", remote_proxy.ip, "255.255.255.255", "net_gateway"])
  | some (ProxySettings.Shadowsocks ss) =>
    match c.proxy_port with
    | some proxy_port =>
      some ["--socks-proxy", "127.0.0.1", toString proxy_port,
            "--route", ss.peerIp, "255.255.255.255", "net_gateway"]
    | none => none
  | none => some []

/-- The two `--pull-filter ignore` directives pushed when IPv6 is disabled
(six tokens: two directives of three tokens each). -/
def ipv6_ignore_arguments : List String :=
  ["--pull-filter", "ignore", "route-ipv6",
   "--pull-filter", "ignore", "ifconfig-ipv6"]

/-- The `--config` block of `get_arguments`. -/
def config_arguments (c : OpenVpnCommand) : List String :=
  match c.config with
  | some config => ["--config", config]
  | none => []

/-- The `--ca` block of `get_arguments`. -/
def ca_arguments (c : OpenVpnCommand) : List String :=
  match c.ca with
  | some ca => ["--ca", ca]
  | none => []

/-- The `--crl-verify` block of `get_arguments`. -/
def crl_arguments (c : OpenVpnCommand) : List String :=
  match c.crl with
  | some crl => ["--crl-verify", crl]
  | none => []

/-- The `--plugin` block of `get_arguments`: flag, plugin path, then each
plugin argument as a separate token. -/
def plugin_arguments (c : OpenVpnCommand) : List String :=
  match c.plugin with
  | some (path, plugin_args) => ["--plugin", path] ++ plugin_args
  | none => []

/-- The `--log` block of `get_arguments`. -/
def log_arguments (c : OpenVpnCommand) : List String :=
  match c.log with
  | some log => ["--log", log]
  | none => []

/-- The `--mssfix` block of `get_arguments`. -/
def mssfix_arguments (c : OpenVpnCommand) : List String :=
  match c.tunnel_options.mssfix with
  | some mssfix => ["--mssfix", toString mssfix]
  | none => []

/-- The IPv6 block of `get_arguments`: the six ignore tokens exactly when
`enable_ipv6` is false. -/
def ipv6_arguments (c : OpenVpnCommand) : List String :=
  if c.enable_ipv6 then [] else ipv6_ignore_arguments

/-- The `--dev-node` block of `get_arguments`. -/
def dev_node_arguments (c : OpenVpnCommand) : List String :=
  match c.tunnel_alias with
  | some tunnel_device => ["--dev-node", tunnel_device]
  | none => []

/-- The `--mark` block of `get_arguments` (Linux only). -/
def fwmark_arguments (c : OpenVpnCommand) : List String :=
  match c.fwmark with
  | some mark => ["--mark", toString mark]
  | none => []

/-- `OpenVpnCommand::get_arguments`: the full argument vector, assembled in
exactly the push order of the source (base, config, remote, authentication,
ca, crl, plugin, log, mssfix, IPv6 ignores, dev-node, TLS ciphersuites,
proxy, fwmark). `none` models the `panic!` raised from `proxy_arguments`. -/
def get_arguments (c : OpenVpnCommand) : Option (List String) :=
  match proxy_arguments c with
  | none => none
  | some proxyArgs =>
    some (base_arguments
      ++ config_arguments c
      ++ remote_arguments c
      ++ authentication_arguments c
      ++ ca_arguments c
      ++ crl_arguments c
      ++ plugin_arguments c
      ++ log_arguments c
      ++ mssfix_arguments c
      ++ ipv6_arguments c
      ++ dev_node_arguments c
      ++ tls_cipher_arguments
      ++ proxyArgs
      ++ fwmark_arguments c)

/-- The Rust signature is `fn get_arguments(&self) -> Vec<OsString>`: the
receiver is a shared borrow, so the call returns the argument vector and
leaves the builder state untouched. This wrapper makes that state passing
explicit. -/
def get_arguments_call (c : OpenVpnCommand) :
    Option (List String) × OpenVpnCommand :=
  (get_arguments c, c)

end OpenVpnCommand

namespace OpenVpnProcHandle

/-!
Model of the `OpenVpnProcHandle` shutdown operations (`nice_kill`, `stop`,
`clean_up`, `kill`, `has_stopped`). A single shutdown invocation is
modelled; concurrency is out of scope (each shared resource sits behind a
lock and the claims concern one caller's control flow).

The OS and child-process behaviour visible to one invocation is an
environment of four booleans:
* `exitedAtStopPoll` — whether `try_wait` (called from `clean_up` during
  `stop`) already observes the child as exited;
* `pollOk` — whether that `try_wait` call itself succeeds;
* `exitsWithinTimeout` — whether the `wait()` future completes before the
  `tokio::time::timeout` deadline in `nice_kill`;
* `killOk` — whether the OS forced-kill primitive (`Child::kill`) succeeds.

Every call of the OS forced-kill primitive is recorded as a
`Event.killCall`; dropping the held pipe writer (which closes the child's
stdin) is recorded as `Event.closeStdin`; the "stdin handle taken twice"
warning as `Event.warnStdinTwice`. The stdin slot
(`Mutex<Option<PipeWriter>>`) is threaded explicitly as an
`Option Unit`. All model functions are total: the Rust code has no panic
on these paths.
-/

/-- Observable events of one shutdown invocation. -/
inductive Event where
  | closeStdin
  | warnStdinTwice
  | killCall
deriving DecidableEq, Repr

/-- The `io::Error` outcomes the shutdown paths can produce. -/
inductive IoError where
  | killError
  | pollError
deriving DecidableEq, Repr

/-- Behaviour of the OS and of the child process as seen by one shutdown
invocation. -/
structure Env where
  exitedAtStopPoll : Bool
  pollOk : Bool
  exitsWithinTimeout : Bool
  killOk : Bool
deriving DecidableEq, Repr

/-- `OpenVpnProcHandle::kill`: invokes the OS forced-kill primitive
(recorded as `Event.killCall`) and propagates its failure. -/
def kill (e : Env) : Except IoError Unit × List Event :=
  if e.killOk then (Except.ok (), [Event.killCall])
  else (Except.error IoError.killError, [Event.killCall])

/-- `OpenVpnProcHandle::has_stopped`: `try_wait` on the child; reports
whether an exit status is recorded, or the poll's own I/O failure. -/
def has_stopped (e : Env) : Except IoError Bool :=
  if e.pollOk then Except.ok e.exitedAtStopPoll
  else Except.error IoError.pollError

/-- `OpenVpnProcHandle::clean_up`: kill the child unless it has already
stopped (also kill when the poll fails); the kill result is only logged
(`if let Err(error) = result { log::error!(..) }`) and discarded, so
`clean_up` returns no error — only its event trace. -/
def clean_up (e : Env) : List Event :=
  match has_stopped e with
  | Except.ok true => []
  | Except.ok false => (kill e).2
  | Except.error _ => (kill e).2

/-- `OpenVpnProcHandle::stop`: take the stdin slot (dropping the writer
closes the child's stdin; a take on an empty slot only logs a warning),
then run `clean_up`. Returns the new slot state and the event trace. -/
def stop (e : Env) (stdin : Option Unit) : Option Unit × List Event :=
  (none,
    (match stdin with
     | some _ => [Event.closeStdin]
     | none => [Event.warnStdinTwice])
    ++ clean_up e)

/-- `OpenVpnProcHandle::nice_kill`: run `stop`, then race `wait()` against
the timeout; when the wait wins, succeed; when the timeout elapses, call
`kill` and propagate its failure. Returns the result, the stdin slot state
and the event trace. -/
def nice_kill (e : Env) (stdin : Option Unit) :
    Except IoError Unit × Option Unit × List Event :=
  let s := stop e stdin
  if e.exitsWithinTimeout then
    (Except.ok (), s.1, s.2)
  else
    match kill e with
    | (Except.ok _, ev) => (Except.ok (), s.1, s.2 ++ ev)
    | (Except.error er, ev) => (Except.error er, s.1, s.2 ++ ev)

end OpenVpnProcHandle

open OpenVpnCommand

/-- Concrete configuration for the C4 witness: remote endpoint
`127.0.0.1:3333` over UDP on an otherwise fresh builder. -/
def c4cfg : OpenVpnCommand :=
  { OpenVpnCommand.new "" with
    remote := some { ip := "127.0.0.1", port := 3333,
                     protocol := TransportProtocol.udp } }

/-- Concrete configuration for the C7 witness: plugin `./a/path` with
arguments `["123", "cde"]`. -/
def c7cfg : OpenVpnCommand :=
  { OpenVpnCommand.new "" with plugin := some ("./a/path", ["123", "cde"]) }

/-- Concrete configuration for the C5 witness: Shadowsocks proxy settings
with no recorded port. -/
def c5cfg : OpenVpnCommand :=
  { OpenVpnCommand.new "" with
    proxy_settings := some (ProxySettings.Shadowsocks { peerIp := "10.0.0.1" }) }

/-- Concrete configuration for the C9 witness: remote SOCKS proxy at
`1.2.3.4:1080` declaring auth. -/
def c9cfg : OpenVpnCommand :=
  { OpenVpnCommand.new "" with
    proxy_settings := some (ProxySettings.Remote
      { ip := "1.2.3.4", port := 1080,
        auth := some { username := "u", password := "p" } }) }

/-- Concrete configuration for the C10 counterexample: proxy settings
absent, but the plugin arguments contain the literal string
`--socks-proxy`. -/
def c10cfg : OpenVpnCommand :=
  { OpenVpnCommand.new "" with plugin := some ("plug", ["--socks-proxy"]) }

/-- Helper: a sublist of `m` is a sublist of `x ++ m`. -/
lemma sublist_extend_left {α : Type} (x : List α) {l m : List α}
    (h : List.Sublist l m) : List.Sublist l (x ++ m) :=
  h.trans (List.sublist_append_right x m)

/-- Helper: a sublist of `m` is a sublist of `m ++ x`. -/
lemma sublist_extend_right {α : Type} {l m : List α}
    (h : List.Sublist l m) (x : List α) : List.Sublist l (m ++ x) :=
  h.trans (List.sublist_append_left m x)

/-- C4: for every configuration with a remote endpoint set, the generated
argument sequence contains the protocol token ("udp" for UDP, "tcp-client"
for TCP), the endpoint's address string, and its port string as three
separate entries in that relative order, regardless of all other
configuration fields. -/
theorem c4_remote_endpoint_tokens (c : OpenVpnCommand) (ep : Endpoint)
    (args : List String) (hr : c.remote = some ep)
    (ha : get_arguments c = some args) :
    List.Sublist
      [(match ep.protocol with
        | TransportProtocol.udp => "udp"
        | TransportProtocol.tcp => "tcp-client"),
       ep.ip, toString ep.port] args := by
  have h0 : List.Sublist
      [(match ep.protocol with
        | TransportProtocol.udp => "udp"
        | TransportProtocol.tcp => "tcp-client"),
       ep.ip, toString ep.port] (remote_arguments c) := by
    rw [remote_arguments, hr]
    exact ((((List.Sublist.slnil.cons₂ (toString ep.port)).cons₂
      ep.ip).cons "--remote").cons₂ _).cons "--proto"
  rcases hp : proxy_arguments c with _ | proxyArgs
  · rw [get_arguments, hp] at ha
    exact absurd ha (by simp)
  · rw [get_arguments, hp] at ha
    have hargs := Option.some.inj ha
    rw [← hargs]
    exact sublist_extend_right (sublist_extend_right (sublist_extend_right
      (sublist_extend_right (sublist_extend_right (sublist_extend_right
      (sublist_extend_right (sublist_extend_right (sublist_extend_right
      (sublist_extend_right (sublist_extend_right
        (sublist_extend_left (base_arguments ++ config_arguments c) h0)
        (authentication_arguments c)) (ca_arguments c)) (crl_arguments c))
        (plugin_arguments c)) (log_arguments c)) (mssfix_arguments c))
        (ipv6_arguments c)) (dev_node_arguments c)) tls_cipher_arguments)
        proxyArgs) (fwmark_arguments c)

/-- Helper: `get_arguments` unfolded once the proxy block is known. -/
lemma get_arguments_decomp (c : OpenVpnCommand) (proxyArgs : List String)
    (hp : proxy_arguments c = some proxyArgs) :
    get_arguments c = some (base_arguments
      ++ config_arguments c
      ++ remote_arguments c
      ++ authentication_arguments c
      ++ ca_arguments c
      ++ crl_arguments c
      ++ plugin_arguments c
      ++ log_arguments c
      ++ mssfix_arguments c
      ++ ipv6_arguments c
      ++ dev_node_arguments c
      ++ tls_cipher_arguments
      ++ proxyArgs
      ++ fwmark_arguments c) := by
  rw [get_arguments, hp]

/-- C4 witness: the theorem applied at `c4cfg`. -/
theorem c4_remote_endpoint_tokens_witness :
    List.Sublist ["udp", "127.0.0.1", "3333"]
      ((get_arguments c4cfg).getD []) :=
  c4_remote_endpoint_tokens c4cfg
    { ip := "127.0.0.1", port := 3333, protocol := TransportProtocol.udp }
    ((get_arguments c4cfg).getD []) rfl (by rfl)

/-- C7: for every configuration with a plugin set, the generated argument
sequence contains the plugin path followed immediately by each plugin
argument string as separate consecutive tokens, in the order the arguments
were supplied (the block `path :: pluginArgs` occurs contiguously). -/
theorem c7_plugin_tokens (c : OpenVpnCommand) (path : String)
    (pluginArgs : List String) (args : List String)
    (hpl : c.plugin = some (path, pluginArgs))
    (ha : get_arguments c = some args) :
    ∃ s t, args = s ++ (path :: pluginArgs) ++ t := by
  rcases hp : proxy_arguments c with _ | proxyArgs
  · rw [get_arguments, hp] at ha
    exact absurd ha (by simp)
  · have hd := get_arguments_decomp c proxyArgs hp
    rw [hd] at ha
    have hargs := Option.some.inj ha
    refine ⟨base_arguments ++ config_arguments c ++ remote_arguments c
      ++ authentication_arguments c ++ ca_arguments c ++ crl_arguments c
      ++ ["--plugin"],
      log_arguments c ++ mssfix_arguments c ++ ipv6_arguments c
      ++ dev_node_arguments c ++ tls_cipher_arguments ++ proxyArgs
      ++ fwmark_arguments c, ?_⟩
    rw [← hargs]
    rw [plugin_arguments, hpl]
    simp [List.append_assoc]

/-- C7 witness: the theorem applied at `c7cfg`. -/
theorem c7_plugin_tokens_witness :
    ∃ s t, (get_arguments c7cfg).getD [] =
      s ++ ("./a/path" :: ["123", "cde"]) ++ t :=
  c7_plugin_tokens c7cfg "./a/path" ["123", "cde"]
    ((get_arguments c7cfg).getD []) rfl (by rfl)

/-- C3 (amended): for every configuration whose proxy block is produced,
disabling IPv6 inserts exactly the six-token block
`--pull-filter ignore route-ipv6 --pull-filter ignore ifconfig-ipv6`
(two ignore-directive groups) between the mssfix block and the dev-node
block, and the rest of the sequence is identical whether IPv6 is enabled
or disabled. -/
theorem c3_ipv6_ignore_block (c : OpenVpnCommand) (proxyArgs : List String)
    (hp : proxy_arguments c = some proxyArgs) :
    ∃ pre post,
      get_arguments { c with enable_ipv6 := true } = some (pre ++ post) ∧
      get_arguments { c with enable_ipv6 := false } =
        some (pre ++ ipv6_ignore_arguments ++ post) ∧
      ipv6_ignore_arguments.length = 6 := by
  have hd₁ : get_arguments { c with enable_ipv6 := true } =
      some (base_arguments ++ config_arguments c ++ remote_arguments c
        ++ authentication_arguments c ++ ca_arguments c ++ crl_arguments c
        ++ plugin_arguments c ++ log_arguments c ++ mssfix_arguments c
        ++ [] ++ dev_node_arguments c ++ tls_cipher_arguments ++ proxyArgs
        ++ fwmark_arguments c) :=
    get_arguments_decomp { c with enable_ipv6 := true } proxyArgs hp
  have hd₂ : get_arguments { c with enable_ipv6 := false } =
      some (base_arguments ++ config_arguments c ++ remote_arguments c
        ++ authentication_arguments c ++ ca_arguments c ++ crl_arguments c
        ++ plugin_arguments c ++ log_arguments c ++ mssfix_arguments c
        ++ ipv6_ignore_arguments ++ dev_node_arguments c
        ++ tls_cipher_arguments ++ proxyArgs ++ fwmark_arguments c) :=
    get_arguments_decomp { c with enable_ipv6 := false } proxyArgs hp
  refine ⟨base_arguments ++ config_arguments c ++ remote_arguments c
    ++ authentication_arguments c ++ ca_arguments c ++ crl_arguments c
    ++ plugin_arguments c ++ log_arguments c ++ mssfix_arguments c,
    dev_node_arguments c ++ tls_cipher_arguments ++ proxyArgs
    ++ fwmark_arguments c, ?_, ?_, rfl⟩
  · rw [hd₁]
    simp [List.append_assoc]
  · rw [hd₂]
    simp [List.append_assoc]

/-- C3 witness: a fresh builder (whose proxy block is empty). -/
theorem c3_ipv6_ignore_block_witness :
    ∃ pre post,
      get_arguments { OpenVpnCommand.new "" with enable_ipv6 := true } =
        some (pre ++ post) ∧
      get_arguments { OpenVpnCommand.new "" with enable_ipv6 := false } =
        some (pre ++ ipv6_ignore_arguments ++ post) ∧
      ipv6_ignore_arguments.length = 6 :=
  c3_ipv6_ignore_block (OpenVpnCommand.new "") [] rfl

/-- C5: for every configuration whose proxy settings select the
Shadowsocks (dynamic-port) variant, argument generation aborts (the
`panic!`, modelled as `none`) when no local proxy port was recorded, and
otherwise produces a sequence containing `--socks-proxy`, `127.0.0.1` and
the recorded port's string (contiguously, in that order). -/
theorem c5_shadowsocks_port (c : OpenVpnCommand)
    (ss : ShadowsocksProxySettings)
    (hps : c.proxy_settings = some (ProxySettings.Shadowsocks ss)) :
    (c.proxy_port = none → get_arguments c = none) ∧
    (∀ p, c.proxy_port = some p →
      ∃ s t, get_arguments c =
        some (s ++ ["--socks-proxy", "127.0.0.1", toString p] ++ t)) := by
  constructor
  · intro hq
    have hpa : proxy_arguments c = none := by
      unfold proxy_arguments
      rw [hps, hq]
    rw [get_arguments, hpa]
  · intro p hq
    have hpa : proxy_arguments c =
        some ["--socks-proxy", "127.0.0.1", toString p,
              "--route", ss.peerIp, "255.255.255.255", "net_gateway"] := by
      unfold proxy_arguments
      rw [hps, hq]
    have hd := get_arguments_decomp c _ hpa
    refine ⟨base_arguments ++ config_arguments c ++ remote_arguments c
      ++ authentication_arguments c ++ ca_arguments c ++ crl_arguments c
      ++ plugin_arguments c ++ log_arguments c ++ mssfix_arguments c
      ++ ipv6_arguments c ++ dev_node_arguments c ++ tls_cipher_arguments,
      ["--route", ss.peerIp, "255.255.255.255", "net_gateway"]
      ++ fwmark_arguments c, ?_⟩
    rw [hd]
    simp [List.append_assoc]

/-- C5 witness: with no recorded port generation aborts; with port 1080 the
three proxy tokens appear. -/
theorem c5_shadowsocks_port_witness :
    get_arguments c5cfg = none ∧
    ∃ s t, get_arguments { c5cfg with proxy_port := some 1080 } =
      some (s ++ ["--socks-proxy", "127.0.0.1", "1080"] ++ t) :=
  ⟨(c5_shadowsocks_port c5cfg { peerIp := "10.0.0.1" } rfl).1 rfl,
   (c5_shadowsocks_port { c5cfg with proxy_port := some 1080 }
     { peerIp := "10.0.0.1" } rfl).2 1080 rfl⟩

/-- Helper: the proxy block for the remote SOCKS variant, with the
(possibly absent) credential token still expressed as a match on the
auth marker and the credential path. -/
lemma proxy_arguments_remote (c : OpenVpnCommand)
    (rp : RemoteProxySettings)
    (hps : c.proxy_settings = some (ProxySettings.Remote rp)) :
    proxy_arguments c =
      some (["--socks-proxy", rp.ip, toString rp.port]
        ++ (match rp.auth with
            | some _ =>
              (match c.proxy_auth_path with
               | some auth_file => [auth_file]
               | none => [])
            | none => [])
        ++ ["--route", rp.ip, "255.255.255.255", "net_gateway"]) := by
  unfold proxy_arguments
  rw [hps]

/-- C9: for every configuration whose proxy settings are a remote SOCKS
proxy with an auth marker: when a proxy-auth credential file path is
supplied the generated sequence contains it immediately after the proxy
address and port tokens; when none is supplied, generation still succeeds
(the code only logs an error) and yields the same sequence minus the
credential token. -/
theorem c9_remote_proxy_auth (c : OpenVpnCommand)
    (rp : RemoteProxySettings) (a : ProxyAuth) (f : String)
    (hps : c.proxy_settings = some (ProxySettings.Remote rp))
    (hauth : rp.auth = some a) :
    ∃ s t,
      get_arguments { c with proxy_auth_path := some f } =
        some (s ++ ["--socks-proxy", rp.ip, toString rp.port, f] ++ t) ∧
      get_arguments { c with proxy_auth_path := none } =
        some (s ++ ["--socks-proxy", rp.ip, toString rp.port] ++ t) := by
  have hpa₁ : proxy_arguments { c with proxy_auth_path := some f } =
      some (["--socks-proxy", rp.ip, toString rp.port] ++ [f]
        ++ ["--route", rp.ip, "255.255.255.255", "net_gateway"]) := by
    rw [proxy_arguments_remote { c with proxy_auth_path := some f } rp hps,
      hauth]
  have hpa₂ : proxy_arguments { c with proxy_auth_path := none } =
      some (["--socks-proxy", rp.ip, toString rp.port] ++ []
        ++ ["--route", rp.ip, "255.255.255.255", "net_gateway"]) := by
    rw [proxy_arguments_remote { c with proxy_auth_path := none } rp hps,
      hauth]
  have hd₁ : get_arguments { c with proxy_auth_path := some f } =
      some (base_arguments ++ config_arguments c ++ remote_arguments c
        ++ authentication_arguments c ++ ca_arguments c ++ crl_arguments c
        ++ plugin_arguments c ++ log_arguments c ++ mssfix_arguments c
        ++ ipv6_arguments c ++ dev_node_arguments c ++ tls_cipher_arguments
        ++ (["--socks-proxy", rp.ip, toString rp.port] ++ [f]
          ++ ["--route", rp.ip, "255.255.255.255", "net_gateway"])
        ++ fwmark_arguments c) :=
    get_arguments_decomp { c with proxy_auth_path := some f } _ hpa₁
  have hd₂ : get_arguments { c with proxy_auth_path := none } =
      some (base_arguments ++ config_arguments c ++ remote_arguments c
        ++ authentication_arguments c ++ ca_arguments c ++ crl_arguments c
        ++ plugin_arguments c ++ log_arguments c ++ mssfix_arguments c
        ++ ipv6_arguments c ++ dev_node_arguments c ++ tls_cipher_arguments
        ++ (["--socks-proxy", rp.ip, toString rp.port] ++ []
          ++ ["--route", rp.ip, "255.255.255.255", "net_gateway"])
        ++ fwmark_arguments c) :=
    get_arguments_decomp { c with proxy_auth_path := none } _ hpa₂
  refine ⟨base_arguments ++ config_arguments c ++ remote_arguments c
    ++ authentication_arguments c ++ ca_arguments c ++ crl_arguments c
    ++ plugin_arguments c ++ log_arguments c ++ mssfix_arguments c
    ++ ipv6_arguments c ++ dev_node_arguments c ++ tls_cipher_arguments,
    ["--route", rp.ip, "255.255.255.255", "net_gateway"]
    ++ fwmark_arguments c, ?_, ?_⟩
  · rw [hd₁]
    simp [List.append_assoc]
  · rw [hd₂]
    simp [List.append_assoc]

/-- C9 witness: the theorem applied at `c9cfg` with credential file
`creds.txt`. -/
theorem c9_remote_proxy_auth_witness :
    ∃ s t,
      get_arguments { c9cfg with proxy_auth_path := some "creds.txt" } =
        some (s ++ ["--socks-proxy", "1.2.3.4", "1080", "creds.txt"] ++ t) ∧
      get_arguments { c9cfg with proxy_auth_path := none } =
        some (s ++ ["--socks-proxy", "1.2.3.4", "1080"] ++ t) :=
  c9_remote_proxy_auth c9cfg
    { ip := "1.2.3.4", port := 1080,
      auth := some { username := "u", password := "p" } }
    { username := "u", password := "p" } "creds.txt" rfl rfl

/-- C8: argument generation is a pure function of the builder state: the
Rust receiver is an immutable borrow with no interior mutability, modelled
by `get_arguments_call` returning the unchanged builder; two calls on the
unmodified configuration yield identical results. -/
theorem c8_generation_pure (c : OpenVpnCommand) :
    (get_arguments_call c).2 = c ∧
    (get_arguments_call ((get_arguments_call c).2)).1 =
      (get_arguments_call c).1 :=
  ⟨rfl, rfl⟩

/-- C10 (amended): two configurations that differ only in the proxy-auth
credential path and the recorded proxy port, with proxy settings absent,
generate identical argument sequences; a `--socks-proxy` token occurs in
that sequence only if one of the configuration-dependent, non-proxy
argument blocks (config, remote, authentication, ca, crl, plugin, log,
mssfix, IPv6, dev-node, fwmark) literally contains it — the proxy logic
and the fixed base/TLS blocks contribute none. -/
theorem c10_no_proxy_independence (c : OpenVpnCommand)
    (p₁ p₂ : Option String) (q₁ q₂ : Option Nat)
    (hps : c.proxy_settings = none) :
    get_arguments { c with proxy_auth_path := p₁, proxy_port := q₁ } =
      get_arguments { c with proxy_auth_path := p₂, proxy_port := q₂ } ∧
    ∀ args, get_arguments c = some args →
      ("--socks-proxy" ∈ args ↔ "--socks-proxy" ∈
        config_arguments c ++ remote_arguments c
        ++ authentication_arguments c ++ ca_arguments c ++ crl_arguments c
        ++ plugin_arguments c ++ log_arguments c ++ mssfix_arguments c
        ++ ipv6_arguments c ++ dev_node_arguments c
        ++ fwmark_arguments c) := by
  have hpa : proxy_arguments c = some [] := by
    unfold proxy_arguments
    rw [hps]
  have hpa₁ : proxy_arguments { c with proxy_auth_path := p₁, proxy_port := q₁ } = some [] := by
    unfold proxy_arguments
    rw [(show ({ c with proxy_auth_path := p₁, proxy_port := q₁ } :
      OpenVpnCommand).proxy_settings = none from hps)]
  have hpa₂ : proxy_arguments { c with proxy_auth_path := p₂, proxy_port := q₂ } = some [] := by
    unfold proxy_arguments
    rw [(show ({ c with proxy_auth_path := p₂, proxy_port := q₂ } :
      OpenVpnCommand).proxy_settings = none from hps)]
  constructor
  · have h₁ : get_arguments { c with proxy_auth_path := p₁, proxy_port := q₁ } =
        some (base_arguments ++ config_arguments c ++ remote_arguments c
          ++ authentication_arguments c ++ ca_arguments c ++ crl_arguments c
          ++ plugin_arguments c ++ log_arguments c ++ mssfix_arguments c
          ++ ipv6_arguments c ++ dev_node_arguments c
          ++ tls_cipher_arguments ++ [] ++ fwmark_arguments c) :=
      get_arguments_decomp { c with proxy_auth_path := p₁, proxy_port := q₁ } [] hpa₁
    have h₂ : get_arguments { c with proxy_auth_path := p₂, proxy_port := q₂ } =
        some (base_arguments ++ config_arguments c ++ remote_arguments c
          ++ authentication_arguments c ++ ca_arguments c ++ crl_arguments c
          ++ plugin_arguments c ++ log_arguments c ++ mssfix_arguments c
          ++ ipv6_arguments c ++ dev_node_arguments c
          ++ tls_cipher_arguments ++ [] ++ fwmark_arguments c) :=
      get_arguments_decomp { c with proxy_auth_path := p₂, proxy_port := q₂ } [] hpa₂
    exact h₁.trans h₂.symm
  · intro args ha
    have hd := get_arguments_decomp c [] hpa
    rw [hd] at ha
    have hargs := Option.some.inj ha
    have hb : "--socks-proxy" ∉ base_arguments := by decide
    have ht : "--socks-proxy" ∉ tls_cipher_arguments := by decide
    rw [← hargs]
    simp only [List.mem_append, List.not_mem_nil, or_false, eq_false hb,
      eq_false ht, false_or, or_assoc]

/-- C10 witness: the amended theorem applied at a fresh builder, with the
two configurations differing in credential path (`some "a"` vs `none`) and
recorded port (`some 1` vs `none`). -/
theorem c10_no_proxy_independence_witness :
    get_arguments { OpenVpnCommand.new "" with
        proxy_auth_path := some "a", proxy_port := some 1 } =
      get_arguments { OpenVpnCommand.new "" with
        proxy_auth_path := none, proxy_port := none } ∧
    ("--socks-proxy" ∈ (get_arguments (OpenVpnCommand.new "")).getD [] ↔
      "--socks-proxy" ∈ config_arguments (OpenVpnCommand.new "")
        ++ remote_arguments (OpenVpnCommand.new "")
        ++ authentication_arguments (OpenVpnCommand.new "")
        ++ ca_arguments (OpenVpnCommand.new "")
        ++ crl_arguments (OpenVpnCommand.new "")
        ++ plugin_arguments (OpenVpnCommand.new "")
        ++ log_arguments (OpenVpnCommand.new "")
        ++ mssfix_arguments (OpenVpnCommand.new "")
        ++ ipv6_arguments (OpenVpnCommand.new "")
        ++ dev_node_arguments (OpenVpnCommand.new "")
        ++ fwmark_arguments (OpenVpnCommand.new "")) :=
  ⟨(c10_no_proxy_independence (OpenVpnCommand.new "")
      (some "a") none (some 1) none rfl).1,
   (c10_no_proxy_independence (OpenVpnCommand.new "")
      (some "a") none (some 1) none rfl).2
      ((get_arguments (OpenVpnCommand.new "")).getD []) (by rfl)⟩

/-- C10 counterexample: two configurations with absent proxy settings that
differ only in the proxy-auth credential path and the recorded proxy port
generate identical sequences (first conjunct), yet the sequence does
contain a `--socks-proxy` token — contributed by a plugin argument — so
the claim's "neither sequence contains a --socks-proxy token" is false. -/
theorem c10_socks_token_counterexample :
    get_arguments { c10cfg with
        proxy_auth_path := none, proxy_port := none } =
      get_arguments { c10cfg with
        proxy_auth_path := some "creds", proxy_port := some 1 } ∧
    "--socks-proxy" ∈ (get_arguments { c10cfg with
        proxy_auth_path := none, proxy_port := none }).getD [] := by
  refine ⟨by decide, by decide⟩

/-- C3 counterexample: on a fresh builder, disabling IPv6 adds six tokens,
not four — the two ignore directives are three tokens each
(`--pull-filter ignore route-ipv6` and `--pull-filter ignore
ifconfig-ipv6`). -/
theorem c3_four_token_counterexample :
    ((get_arguments { OpenVpnCommand.new "" with
        enable_ipv6 := false }).getD []).length =
      ((get_arguments (OpenVpnCommand.new "")).getD []).length + 6 ∧
    ((get_arguments { OpenVpnCommand.new "" with
        enable_ipv6 := false }).getD []).length ≠
      ((get_arguments (OpenVpnCommand.new "")).getD []).length + 4 := by
  decide

open OpenVpnProcHandle

/-- C1 (amended): when the child exits within the timeout, `nice_kill`
completes successfully; but the OS forced-kill primitive is avoided only
when the child has already exited by the time `stop`'s status poll runs
(`exitedAtStopPoll`) — otherwise `clean_up`, invoked from `stop`, calls
the forced-kill primitive even though the child exits within the
timeout. -/
theorem c1_graceful_stop (a k : Bool) (st : Option Unit) :
    (nice_kill ⟨a, true, true, k⟩ st).1 = Except.ok () ∧
    (Event.killCall ∉ (nice_kill ⟨a, true, true, k⟩ st).2.2 ↔ a = true) := by
  cases st with
  | none => cases a <;> cases k <;> exact ⟨rfl, by decide⟩
  | some u => cases u; cases a <;> cases k <;> exact ⟨rfl, by decide⟩

/-- C1 counterexample: a run where the child exits within the timeout
after the cooperative-close signal (`exitsWithinTimeout := true`) but had
not yet exited when `stop`'s poll ran; `nice_kill` returns success, yet
the forced-kill primitive was invoked (from `clean_up`). -/
theorem c1_kill_despite_graceful_exit :
    (nice_kill ⟨false, true, true, true⟩ (some ())).1 = Except.ok () ∧
    (⟨false, true, true, true⟩ : Env).exitsWithinTimeout = true ∧
    Event.killCall ∈ (nice_kill ⟨false, true, true, true⟩ (some ())).2.2 :=
  ⟨rfl, rfl, by decide⟩

/-- C2 (amended): a forced-kill failure in the timeout branch of
`nice_kill` is returned to the caller as an I/O error; but the kill that
`clean_up` issues during `stop` has its failure logged and swallowed, so
`nice_kill` can invoke the kill primitive, have it fail, and still return
success (see the counterexample). -/
theorem c2_kill_error_propagation (a b : Bool) (st : Option Unit) :
    (nice_kill ⟨a, b, false, false⟩ st).1 =
      Except.error IoError.killError := by
  cases st with
  | none => cases a <;> cases b <;> rfl
  | some u => cases u; cases a <;> cases b <;> rfl

/-- C2 counterexample: a run in which `nice_kill` invokes the OS
forced-kill primitive (from `clean_up`), the primitive fails
(`killOk := false`), and `nice_kill` nonetheless returns success because
the child then exits within the timeout on its own. -/
theorem c2_masked_kill_failure :
    (kill ⟨false, true, true, false⟩).1 =
      Except.error IoError.killError ∧
    Event.killCall ∈ (nice_kill ⟨false, true, true, false⟩ (some ())).2.2 ∧
    (nice_kill ⟨false, true, true, false⟩ (some ())).1 = Except.ok () :=
  ⟨rfl, by decide, rfl⟩

/-- C6: the stdin slot goes to `absent` on every `stop` and the pipe
writer is closed at most once: a `stop` on a present slot closes it once,
a `stop` on an empty slot (in particular any second `stop`) closes
nothing, only logs the "closed twice" warning, and the model functions
are total (no panic path exists). -/
theorem c6_stdin_taken_once (e₁ e₂ : Env) (st : Option Unit) :
    (stop e₁ st).1 = none ∧
    List.count Event.closeStdin (stop e₁ st).2 ≤ 1 ∧
    (Event.closeStdin ∉ (stop e₁ none).2 ∧
      Event.warnStdinTwice ∈ (stop e₁ none).2) ∧
    Event.closeStdin ∉ (stop e₂ (stop e₁ st).1).2 ∧
    Event.warnStdinTwice ∈ (stop e₂ (stop e₁ st).1).2 := by
  obtain ⟨a₁, b₁, d₁, k₁⟩ := e₁
  obtain ⟨a₂, b₂, d₂, k₂⟩ := e₂
  cases st with
  | none =>
    cases a₁ <;> cases b₁ <;> cases d₁ <;> cases k₁ <;> cases a₂ <;>
      cases b₂ <;> cases d₂ <;> cases k₂ <;> decide
  | some u =>
    cases u
    cases a₁ <;> cases b₁ <;> cases d₁ <;> cases k₁ <;> cases a₂ <;>
      cases b₂ <;> cases d₂ <;> cases k₂ <;> decide
